import Mathlib

/-! Verification model of the affinity-ev-updater webhook handler
(src/api/affinity-ev.js).

JavaScript numbers are modelled as exact rationals (no NaN/Infinity
constructor; a NaN-valued computation is modelled as `none` where the
source immediately filters through `Number.isFinite`).  JSON-like values
are the inductive `JSVal`.  Outbound HTTP calls are modelled as an
environment oracle together with an explicit trace of calls. -/

/-- Universe of JavaScript values the handler manipulates. -/
inductive JSVal where
  | null
  | undefined
  | bool (b : Bool)
  | num (q : ℚ)
  | str (s : String)
  | obj (fields : List (String × JSVal))

/-- JS truthiness: null, undefined, false, 0 and the empty string are falsy. -/
def jsFalsy : JSVal → Bool
  | .null => true
  | .undefined => true
  | .bool b => !b
  | .num q => q == 0
  | .str s => s == ""
  | .obj _ => false

/-- Nullish test (null or undefined), as used by the JS ?? operator. -/
def nullish : JSVal → Bool
  | .null => true
  | .undefined => true
  | _ => false

/-- The nullish-coalescing operator `a ?? b`. -/
def coal (a b : JSVal) : JSVal := if nullish a then b else a

/-- Property access `v[k]`.  On objects, the last binding of a key wins
(JSON duplicate-key semantics); on every non-object value the result is
`undefined`.  The source only performs plain (non-optional) accesses on
values it has already checked to be non-nullish, so returning `undefined`
for a nullish base matches all reachable uses of optional chaining. -/
def getp (v : JSVal) (k : String) : JSVal :=
  match v with
  | .obj fs =>
    match fs.reverse.find? (fun kv => kv.1 == k) with
    | some kv => kv.2
    | none => .undefined
  | _ => .undefined

/-- Value of a list of decimal digit characters; `none` if a non-digit occurs. -/
def digitsVal : List Char → Option ℕ
  | [] => some 0
  | c :: cs =>
    if c.isDigit then (digitsVal cs).map (fun n => (c.toNat - 48) * 10 ^ cs.length + n)
    else none

/-- Split a character list at the character '.'. -/
def splitDotAux : List Char → List Char → List (List Char)
  | [], acc => [acc.reverse]
  | c :: cs, acc =>
    if c = '.' then acc.reverse :: splitDotAux cs [] else splitDotAux cs (c :: acc)

/-- Strip leading and trailing whitespace. -/
def trimChars (cs : List Char) : List Char :=
  ((cs.dropWhile Char.isWhitespace).reverse.dropWhile Char.isWhitespace).reverse

/-- Value of an unsigned decimal literal already split at the dot. -/
def unsignedDecVal : List (List Char) → Option ℚ
  | [ip] => if ip = [] then none else (digitsVal ip).map (fun n => (n : ℚ))
  | [ip, fr] =>
    if ip = [] ∧ fr = [] then none
    else
      match digitsVal ip, digitsVal fr with
      | some a, some b => some ((a : ℚ) + (b : ℚ) / 10 ^ fr.length)
      | _, _ => none
  | _ => none

/-- `Number(s)` on a string: trimmed decimal literals with an optional
sign and decimal point; the empty (or all-whitespace) string is 0 and
anything else is NaN (`none`).  Exponent, hexadecimal and Infinity
literals are not modelled (the handler's fields carry plain decimals);
note `Number("Infinity")` is non-finite and is filtered to null by
`safeNum` in the source, agreeing with `none` here. -/
def jsStrToNum (s : String) : Option ℚ :=
  match trimChars s.data with
  | [] => some 0
  | '-' :: u => (unsignedDecVal (splitDotAux u [])).map (fun q => -q)
  | '+' :: u => unsignedDecVal (splitDotAux u [])
  | u => unsignedDecVal (splitDotAux u [])

/-- `Number(x)` coercion, with `none` standing for NaN. -/
def jsToNumber : JSVal → Option ℚ
  | .null => some 0
  | .undefined => none
  | .bool b => some (if b then 1 else 0)
  | .num q => some q
  | .str s => jsStrToNum s
  | .obj _ => none

/-- Source: `const safeNum = (x) => { const n = Number(x); return
Number.isFinite(n) ? n : null; }`.  In the rational model every number is
finite, so the finiteness filter only removes NaN, i.e. `none`. -/
def safeNum (x : JSVal) : Option ℚ := jsToNumber x

/-- `String(x)` coercion.  Integer numbers print as decimal integers as
in JS; the JS decimal rendering of non-integer numbers is not modelled
(no claim exercises it) and is rendered as num/den. -/
def jsToString : JSVal → String
  | .str s => s
  | .null => "null"
  | .undefined => "undefined"
  | .bool b => if b then "true" else "false"
  | .num q => if q.den = 1 then toString q.num else toString q.num ++ "/" ++ toString q.den
  | .obj _ => "[object Object]"

/-- `Math.round(x)` for a finite number: round to nearest, ties toward
positive infinity, i.e. the floor of x + 1/2. -/
def jsRound (q : ℚ) : ℤ := Int.floor (q + 1/2)

/-- Source constant `ZERO_AS_MISSING = true`. -/
def ZERO_AS_MISSING : Bool := true

/-- The JS comparison `o > 0` for a number-or-null `o` (null compares
via ToNumber as 0, hence false). -/
def jsGtZero : Option ℚ → Bool
  | some q => decide (0 < q)
  | none => false

/-- The two zero-as-missing substitution lines of `computeEV`:
`if (mi === 0 && ma > 0) mi = null; if (ma === 0 && mi > 0) ma = null;`
(the second condition reads the already-updated `mi`). -/
def zeroAdjust (mi0 ma0 : Option ℚ) : Option ℚ × Option ℚ :=
  let mi1 := if mi0 = some 0 ∧ jsGtZero ma0 then none else mi0
  let ma1 := if ma0 = some 0 ∧ jsGtZero mi1 then none else ma0
  (mi1, ma1)

/-- The midpoint selection of `computeEV`:
`mi != null && ma != null ? (mi + ma) / 2 : (mi ?? ma ?? 0)`. -/
def midpointOpt (mi ma : Option ℚ) : ℚ :=
  match mi, ma with
  | some a, some b => (a + b) / 2
  | mi, ma => ((mi.orElse fun _ => ma).getD 0)

/-- The likelihood line of `computeEV`:
`Math.max(0, Math.min(100, safeNum(pPct) ?? 0)) / 100`. -/
def likelihoodFrac (pPct : JSVal) : ℚ :=
  Max.max 0 (Min.min 100 ((safeNum pPct).getD 0)) / 100

/-- Source `computeEV(min, max, pPct)`, transcribed line by line. -/
def computeEV (min max pPct : JSVal) : ℤ :=
  let mi0 := safeNum min
  let ma0 := safeNum max
  let mima :=
    if ZERO_AS_MISSING then
      let mi1 := if mi0 = some 0 ∧ jsGtZero ma0 then none else mi0
      let ma1 := if ma0 = some 0 ∧ jsGtZero mi1 then none else ma0
      (mi1, ma1)
    else (mi0, ma0)
  let m : ℚ :=
    match mima.1, mima.2 with
    | some a, some b => (a + b) / 2
    | mi, ma => ((mi.orElse fun _ => ma).getD 0)
  let p : ℚ := Max.max 0 (Min.min 100 ((safeNum pPct).getD 0)) / 100
  jsRound (m * p)

/-- Midpoint actually used by `computeEV` for given min/max inputs. -/
def midpointOf (min max : JSVal) : ℚ :=
  midpointOpt (zeroAdjust (safeNum min) (safeNum max)).1 (zeroAdjust (safeNum min) (safeNum max)).2

/-- Modelled from the spec's words: rounding to the nearest integer with
ties rounded away from zero (used only to compare against the source's
rounding). -/
def roundTiesAwayFromZero (q : ℚ) : ℤ :=
  if 0 ≤ q then Int.floor (q + 1/2) else -Int.floor (-q + 1/2)

/-! Handler model.  The deployment constants of the source file. -/

/-- Source constant `LIST_ID = 300305`. -/
def LIST_ID : ℚ := 300305

/-- Source constant `FID_MIN`. -/
def FID_MIN : String := "field-5140816"

/-- Source constant `FID_MAX`. -/
def FID_MAX : String := "field-5140817"

/-- Source constant `FID_P`. -/
def FID_P : String := "field-5150465"

/-- Source constant `FID_EV`. -/
def FID_EV : String := "field-5305096"

/-- A thrown/rejected JS error as inspected by the top-level catch:
`e?.response?.status` and `e?.response?.data` (absent for non-HTTP
errors such as stream failures) and `e.message`. -/
structure JsError where
  responseStatus : Option ℕ
  responseData : Option JSVal
  message : String

/-- The catch block's `e?.response?.status || 500` (a falsy status,
absent or 0, becomes 500). -/
def errStatus (e : JsError) : ℕ :=
  match e.responseStatus with
  | some s => if s = 0 then 500 else s
  | none => 500

/-- The catch block's `e?.response?.data || e.message`. -/
def errData (e : JsError) : JSVal :=
  match e.responseData with
  | some d => if jsFalsy d then .str e.message else d
  | none => .str e.message

/-- One entry of the remote fields response; `data` models `f.value?.data`
(`undefined` when the value is absent).  Ids are taken as strings, matching
`String(f.id)` on the string field ids the remote API uses. -/
structure FieldEntry where
  id : String
  data : JSVal

/-- Result of an `axios.post`: HTTP status and response data. -/
structure PostResp where
  status : ℕ
  data : JSVal

/-- The environment oracle for outbound I/O: whether the bearer token is
configured (truthy), the outcome of the n-th GET of the entry's fields
(call 0 is the initial read, calls 1.. are the verify re-reads; `none`
data models a nullish `fieldsResp?.data`, read as `[]`), and the outcome
of the single POST writing the EV field. -/
structure Env where
  tokenPresent : Bool
  get : ℕ → Except JsError (Option (List FieldEntry))
  post : Except JsError PostResp

/-- The `new Map(entries.map(f => [String(f.id), f.value?.data])).get(k)`
lookup: the last entry with the given id wins, absent keys give
`undefined`. -/
def fieldLookup (resp : Option (List FieldEntry)) (fid : String) : JSVal :=
  match resp with
  | none => .undefined
  | some entries =>
    match entries.reverse.find? (fun f => f.id == fid) with
    | some f => f.data
    | none => .undefined

/-- A number-or-null JS value (the result of `safeNum`) as a `JSVal`. -/
def ofOpt : Option ℚ → JSVal
  | some q => .num q
  | none => .null

/-- Outbound effects of one request, in order. -/
inductive Call where
  | getFields (listEntryId : String)
  | postEV (listEntryId : String) (ev : ℤ)
  | sleep (ms : ℕ)

/-- Response bodies of the handler's return sites. -/
inductive RespBody where
  | missingToken
  | caught (status : ℕ) (data : JSVal)
  | skippedNoId (payload : JSVal)
  | skippedDiffList (eventListId : Option ℚ)
  | postFailed (status : ℕ) (data : JSVal) (listEntryId : String)
      (mn mx p : Option ℚ) (ev : ℤ)
  | success (listEntryId : String) (mn mx p : Option ℚ) (ev : ℤ)
      (persisted : Option ℚ)

/-- An HTTP response: `res.status(s).json(body)`. -/
structure Response where
  status : ℕ
  body : RespBody

/-- How the inbound body arrives: an already-parsed JS value, a Buffer
with the given utf8 contents, or absent (undefined), in which case the
raw stream is read. -/
inductive ReqBody where
  | val (v : JSVal)
  | buf (s : String)
  | absent

/-- An inbound request: the body, whether the content type includes
`application/x-www-form-urlencoded`, and the outcome of reading the raw
stream (an `Except` error is a stream failure rejecting the promise). -/
structure Request where
  body : ReqBody
  contentTypeForm : Bool
  raw : Except String String

/-- Source `coerceObj`: JSON-parse strings (a failed parse yields `{}`),
pass other truthy values through, and turn falsy values into `{}`.
`jp` abstracts `JSON.parse`, with `none` for a parse error. -/
def coerceObj (jp : String → Option JSVal) (x : JSVal) : JSVal :=
  match x with
  | .str s => (jp s).getD (.obj [])
  | x => if jsFalsy x then .obj [] else x

/-- `Object.fromEntries(new URLSearchParams(s))` given the decoded
key/value pairs. -/
def formToObj (pairs : List (String × String)) : JSVal :=
  .obj (pairs.map fun kv => (kv.1, .str kv.2))

/-- The body-acquisition stage of the handler: produces `outer` from the
request, reading and decoding the raw stream when `req.body` is null,
undefined or the empty string.  `fq` abstracts the `URLSearchParams`
form decoder.  An `Except` error is a rejected raw-stream read. -/
def acquireOuter (jp : String → Option JSVal) (fq : String → List (String × String))
    (req : Request) : Except String JSVal :=
  let rawPath : Except String JSVal :=
    match req.raw with
    | .error m => .error m
    | .ok raw => .ok (if req.contentTypeForm then formToObj (fq raw) else coerceObj jp (.str raw))
  match req.body with
  | .absent => rawPath
  | .buf s => .ok (if req.contentTypeForm then formToObj (fq s) else coerceObj jp (.str s))
  | .val .null => rawPath
  | .val .undefined => rawPath
  | .val (.str "") => rawPath
  | .val (.str s) => .ok (coerceObj jp (.str s))
  | .val (.obj fs) => .ok (.obj fs)
  | .val _ => .ok (.obj [])

/-- `Object.keys(v).length`; throws a TypeError on null/undefined as in
JS (object keys are modelled as unique; only emptiness is consumed). -/
def keysLength : JSVal → Except String ℕ
  | .null => .error "TypeError: Cannot convert undefined or null to object"
  | .undefined => .error "TypeError: Cannot convert undefined or null to object"
  | .obj fs => .ok fs.length
  | .str s => .ok s.length
  | _ => .ok 0

/-- The envelope-unwrapping stage: `bodyCandidate = coerceObj(outer.body)`,
`dataCandidate = coerceObj(outer.data)`, then the first of bodyCandidate,
dataCandidate, outer with at least one key.  Errors model the TypeErrors
JS raises on a nullish `outer` (plain property access) or a null
candidate handed to `Object.keys`. -/
def selectPayload (jp : String → Option JSVal) (outer : JSVal) : Except String JSVal :=
  if nullish outer then .error "TypeError: Cannot read properties of null or undefined"
  else
    let bodyCandidate := coerceObj jp (getp outer "body")
    let dataCandidate := coerceObj jp (getp outer "data")
    match keysLength bodyCandidate with
    | .error m => .error m
    | .ok bl =>
      if bl ≠ 0 then .ok bodyCandidate
      else
        match keysLength dataCandidate with
        | .error m => .error m
        | .ok dl => .ok (if dl ≠ 0 then dataCandidate else outer)

/-- Source identifier resolution:
`String(payload.list_entry_id ?? payload.listEntryId ??
payload?.data?.list_entry_id ?? "")`. -/
def resolveListEntryId (payload : JSVal) : String :=
  jsToString (coal (getp payload "list_entry_id")
    (coal (getp payload "listEntryId")
      (coal (getp (getp payload "data") "list_entry_id") (.str ""))))

/-- Source list-id resolution:
`Number(payload?.field?.list_id ?? payload?.list_id ??
outer?.field?.list_id ?? LIST_ID)`; `none` is NaN. -/
def resolveEventListId (payload outer : JSVal) : Option ℚ :=
  jsToNumber (coal (getp (getp payload "field") "list_id")
    (coal (getp payload "list_id")
      (coal (getp (getp outer "field") "list_id") (.num LIST_ID))))

/-- The verification loop `for (let i = 0; i < 4; i++)`: re-read the
fields (GET call i+1), stop on the first non-null EV value, otherwise
sleep `200 * 2^i` ms and retry.  `fuel` counts the remaining iterations;
a thrown GET propagates with the calls made so far. -/
def verifyLoop (env : Env) (lid : String) :
    ℕ → ℕ → Option ℚ → Except (JsError × List Call) (Option ℚ × List Call)
  | _, 0, persisted => .ok (persisted, [])
  | i, fuel + 1, _ =>
    match env.get (i + 1) with
    | .error e => .error (e, [.getFields lid])
    | .ok after =>
      match safeNum (fieldLookup after FID_EV) with
      | some v => .ok (some v, [.getFields lid])
      | none =>
        match verifyLoop env lid (i + 1) fuel none with
        | .error ec => .error (ec.1, .getFields lid :: .sleep (200 * 2 ^ i) :: ec.2)
        | .ok rc => .ok (rc.1, .getFields lid :: .sleep (200 * 2 ^ i) :: rc.2)

/-- The processing stage once a matching entry id is in hand: read the
three inputs, compute the EV, write it, check the write status, then
verify with retries; every outcome is a 200 response and any thrown
call is recovered into the catch-block shape. -/
def processEntry (env : Env) (lid : String) : Response × List Call :=
  match env.get 0 with
  | .error e => (⟨200, .caught (errStatus e) (errData e)⟩, [.getFields lid])
  | .ok fieldsResp =>
    let mn := safeNum (fieldLookup fieldsResp FID_MIN)
    let mx := safeNum (fieldLookup fieldsResp FID_MAX)
    let p := safeNum (fieldLookup fieldsResp FID_P)
    let ev := computeEV (ofOpt mn) (ofOpt mx) (ofOpt p)
    match env.post with
    | .error e => (⟨200, .caught (errStatus e) (errData e)⟩, [.getFields lid, .postEV lid ev])
    | .ok post =>
      if post.status < 200 ∨ 300 ≤ post.status then
        (⟨200, .postFailed post.status post.data lid mn mx p ev⟩,
          [.getFields lid, .postEV lid ev])
      else
        match verifyLoop env lid 0 4 none with
        | .error ec =>
          (⟨200, .caught (errStatus ec.1) (errData ec.1)⟩,
            [.getFields lid, .postEV lid ev] ++ ec.2)
        | .ok rc =>
          (⟨200, .success lid mn mx p ev rc.1⟩, [.getFields lid, .postEV lid ev] ++ rc.2)

/-- The full handler: the credential guard (the only non-200 response),
body acquisition, envelope unwrapping, identifier and list filters, and
the processing stage, with the top-level catch recovering every thrown
error into a 200 diagnostic. -/
def handler (jp : String → Option JSVal) (fq : String → List (String × String))
    (env : Env) (req : Request) : Response × List Call :=
  if env.tokenPresent then
    match acquireOuter jp fq req with
    | .error m => (⟨200, .caught 500 (.str m)⟩, [])
    | .ok outer =>
      match selectPayload jp outer with
      | .error m => (⟨200, .caught 500 (.str m)⟩, [])
      | .ok payload =>
        let listEntryId := resolveListEntryId payload
        let eventListId := resolveEventListId payload outer
        if listEntryId = "" then (⟨200, .skippedNoId payload⟩, [])
        else if eventListId ≠ some LIST_ID then (⟨200, .skippedDiffList eventListId⟩, [])
        else processEntry env listEntryId
  else (⟨500, .missingToken⟩, [])

/-- Number of GET calls in a trace. -/
def getCount (cs : List Call) : ℕ :=
  cs.countP fun c => match c with | .getFields _ => true | _ => false

/-- Calls recorded in a verify-loop outcome, successful or thrown. -/
def callsOf : Except (JsError × List Call) (Option ℚ × List Call) → List Call
  | .error ec => ec.2
  | .ok rc => rc.2

/-- Modelled from the spec's words for the identifier-extraction
sentence: try `list_entry_id`, `listEntryId`, `data.list_entry_id` in
order and take the first non-empty candidate, coerced to a string (used
only to compare against the source's resolution). -/
def specFirstNonEmptyId (payload : JSVal) : String :=
  let cands := [getp payload "list_entry_id", getp payload "listEntryId",
    getp (getp payload "data") "list_entry_id"]
  match cands.find? (fun c => !nullish c && !(jsToString c == "")) with
  | some c => jsToString c
  | none => ""

/-! Helper lemmas shared by the claim theorems. -/

/-- `computeEV` factors through the midpoint and likelihood stages. -/
theorem computeEV_eq (mn mx c : JSVal) :
    computeEV mn mx c = jsRound (midpointOf mn mx * likelihoodFrac c) := rfl

/-- On non-negative arguments the source's rounding agrees with
round-half-away-from-zero. -/
theorem jsRound_eq_away (q : ℚ) (h : 0 ≤ q) : jsRound q = roundTiesAwayFromZero q := by
  simp [jsRound, roundTiesAwayFromZero, h]

/-- Likelihood fractions are non-negative. -/
theorem likelihoodFrac_nonneg (x : JSVal) : 0 ≤ likelihoodFrac x := by
  unfold likelihoodFrac
  have h : (0:ℚ) ≤ Max.max 0 (Min.min 100 ((safeNum x).getD 0)) := le_max_left _ _
  positivity

/-- Likelihood fractions are at most one. -/
theorem likelihoodFrac_le_one (x : JSVal) : likelihoodFrac x ≤ 1 := by
  unfold likelihoodFrac
  rw [div_le_one (by norm_num)]
  exact max_le (by norm_num) (le_trans (min_le_left _ _) (by norm_num))

/-- A likelihood of at least 100 clamps to the fraction 1. -/
theorem likelihoodFrac_hi (q : ℚ) (h : 100 ≤ q) : likelihoodFrac (.num q) = 1 := by
  simp only [likelihoodFrac, safeNum, jsToNumber, Option.getD_some]
  rw [min_eq_left h, max_eq_right (by norm_num : (0:ℚ) ≤ 100)]
  norm_num

/-- A likelihood of at most 0 clamps to the fraction 0. -/
theorem likelihoodFrac_lo (q : ℚ) (h : q ≤ 0) : likelihoodFrac (.num q) = 0 := by
  simp only [likelihoodFrac, safeNum, jsToNumber, Option.getD_some]
  rw [min_eq_right (le_trans h (by norm_num)), max_eq_left h]
  norm_num

/-- safeNum on a number input. -/
theorem safeNum_num (q : ℚ) : safeNum (.num q) = some q := rfl

/-- safeNum on a null input (Number(null) is 0). -/
theorem safeNum_null : safeNum .null = some 0 := rfl

/-- safeNum on an undefined input (Number(undefined) is NaN). -/
theorem safeNum_undefined : safeNum .undefined = none := rfl

/-- C2 counterexample: at min = max = -11 and likelihood 50 the product is
the tie -5.5, which the source rounds to -5 (half-up) while
ties-away-from-zero gives -6, refuting the claim as stated. -/
theorem C2_rounding_cex :
    computeEV (.num (-11)) (.num (-11)) (.num 50) = -5 ∧
    roundTiesAwayFromZero
      (midpointOf (.num (-11)) (.num (-11)) * likelihoodFrac (.num 50)) = -6 := by
  constructor
  · simp only [computeEV, safeNum, jsToNumber, ZERO_AS_MISSING, jsGtZero]
    norm_num [jsRound]
  · simp only [midpointOf, zeroAdjust, midpointOpt, likelihoodFrac, safeNum, jsToNumber, jsGtZero]
    norm_num [roundTiesAwayFromZero]

/-- C2 (amended): for every input triple, computeEV returns the midpoint
times the likelihood fraction rounded to the nearest integer with ties
rounded toward positive infinity; for non-negative products this agrees
with ties-away-from-zero; in particular computeEV(10, 11, 50) = 5. -/
theorem C2_rounding_amended :
    (∀ a b c : JSVal, computeEV a b c = jsRound (midpointOf a b * likelihoodFrac c)) ∧
    (∀ a b c : JSVal, 0 ≤ midpointOf a b * likelihoodFrac c →
      computeEV a b c = roundTiesAwayFromZero (midpointOf a b * likelihoodFrac c)) ∧
    computeEV (.num 10) (.num 11) (.num 50) = 5 := by
  refine ⟨fun a b c => rfl, fun a b c h => ?_, ?_⟩
  · rw [computeEV_eq]; exact jsRound_eq_away _ h
  · simp only [computeEV, safeNum, jsToNumber, ZERO_AS_MISSING, jsGtZero]
    norm_num [jsRound]

/-- C2 witness: the away-from-zero agreement instantiated at the
non-negative product of the (10, 11, 50) example. -/
theorem C2_rounding_amended_witness :
    0 ≤ midpointOf (.num 10) (.num 11) * likelihoodFrac (.num 50) ∧
    computeEV (.num 10) (.num 11) (.num 50) =
      roundTiesAwayFromZero (midpointOf (.num 10) (.num 11) * likelihoodFrac (.num 50)) := by
  have h : 0 ≤ midpointOf (.num 10) (.num 11) * likelihoodFrac (.num 50) := by
    simp only [midpointOf, zeroAdjust, midpointOpt, likelihoodFrac, safeNum, jsToNumber, jsGtZero]
    norm_num
  exact ⟨h, C2_rounding_amended.2.1 _ _ _ h⟩

/-- C4: if exactly one of (min, max) coerces to zero and the other is
strictly positive, the zero is treated as missing before averaging, so
computeEV(0, 100, 50) = computeEV(100, 100, 50) = 50 while
computeEV(0, 0, 50) = 0 (no substitution when both are zero). -/
theorem C4_zero_as_missing :
    (∀ q : ℚ, 0 < q → zeroAdjust (some 0) (some q) = (none, some q)) ∧
    (∀ q : ℚ, 0 < q → zeroAdjust (some q) (some 0) = (some q, none)) ∧
    zeroAdjust (some 0) (some 0) = (some 0, some 0) ∧
    (∀ mx c (q : ℚ), safeNum mx = some q → 0 < q →
      computeEV (.num 0) mx c = computeEV .undefined mx c) ∧
    (∀ mn c (q : ℚ), safeNum mn = some q → 0 < q →
      computeEV mn (.num 0) c = computeEV mn .undefined c) ∧
    computeEV (.num 0) (.num 100) (.num 50) = 50 ∧
    computeEV (.num 100) (.num 100) (.num 50) = 50 ∧
    computeEV (.num 0) (.num 0) (.num 50) = 0 := by
  refine ⟨fun q h => ?_, fun q h => ?_, ?_, fun mx c q hm h => ?_, fun mn c q hm h => ?_, ?_, ?_, ?_⟩
  · simp [zeroAdjust, jsGtZero, h, h.ne']
  · simp [zeroAdjust, jsGtZero, h, h.ne']
  · simp [zeroAdjust, jsGtZero]
  · rw [computeEV_eq, computeEV_eq]
    have e : midpointOf (.num 0) mx = midpointOf .undefined mx := by
      simp [midpointOf, zeroAdjust, safeNum_num, safeNum_undefined, hm, jsGtZero, h, h.ne']
    rw [e]
  · rw [computeEV_eq, computeEV_eq]
    have e : midpointOf mn (.num 0) = midpointOf mn .undefined := by
      simp [midpointOf, zeroAdjust, safeNum_num, safeNum_undefined, hm, jsGtZero, h, h.ne']
    rw [e]
  · simp only [computeEV, safeNum, jsToNumber, ZERO_AS_MISSING, jsGtZero]
    norm_num [jsRound]
  · simp only [computeEV, safeNum, jsToNumber, ZERO_AS_MISSING, jsGtZero]
    norm_num [jsRound]
  · simp only [computeEV, safeNum, jsToNumber, ZERO_AS_MISSING, jsGtZero]
    norm_num [jsRound]

/-- C4 witness: the substitution conjuncts instantiated at q = 100. -/
theorem C4_zero_as_missing_witness :
    (0:ℚ) < 100 ∧ zeroAdjust (some 0) (some (100:ℚ)) = (none, some 100) ∧
    computeEV (.num 0) (.num 100) (.num 7) = computeEV .undefined (.num 100) (.num 7) :=
  ⟨by norm_num, C4_zero_as_missing.1 100 (by norm_num),
    C4_zero_as_missing.2.2.2.1 (.num 100) (.num 7) 100 rfl (by norm_num)⟩

/-- C5: the likelihood input is clamped to [0, 100], defaults to 0 when
missing or non-numeric, and is divided by 100; hence
computeEV(100, 100, 150) = computeEV(100, 100, 100) and
computeEV(100, 100, -20) = computeEV(100, 100, 0) = 0. -/
theorem C5_likelihood_clamp :
    (∀ x, 0 ≤ likelihoodFrac x ∧ likelihoodFrac x ≤ 1) ∧
    (∀ q : ℚ, 100 ≤ q → likelihoodFrac (.num q) = 1) ∧
    (∀ q : ℚ, q ≤ 0 → likelihoodFrac (.num q) = 0) ∧
    likelihoodFrac .undefined = 0 ∧
    likelihoodFrac (.str "n/a") = 0 ∧
    (∀ a b (q : ℚ), 100 ≤ q → computeEV a b (.num q) = computeEV a b (.num 100)) ∧
    (∀ a b (q : ℚ), q ≤ 0 → computeEV a b (.num q) = computeEV a b (.num 0)) ∧
    (∀ a b, computeEV a b .undefined = computeEV a b (.num 0)) ∧
    computeEV (.num 100) (.num 100) (.num 150) = computeEV (.num 100) (.num 100) (.num 100) ∧
    computeEV (.num 100) (.num 100) (.num (-20)) = 0 ∧
    computeEV (.num 100) (.num 100) (.num 0) = 0 := by
  have hzero : ∀ x, safeNum x = none → likelihoodFrac x = 0 := by
    intro x hx
    simp only [likelihoodFrac, hx, Option.getD_none]
    norm_num
  refine ⟨fun x => ⟨likelihoodFrac_nonneg x, likelihoodFrac_le_one x⟩,
    likelihoodFrac_hi, likelihoodFrac_lo, hzero .undefined rfl, hzero (.str "n/a") rfl,
    fun a b q h => ?_, fun a b q h => ?_, fun a b => ?_, ?_, ?_, ?_⟩
  · rw [computeEV_eq, computeEV_eq, likelihoodFrac_hi q h, likelihoodFrac_hi 100 le_rfl]
  · rw [computeEV_eq, computeEV_eq, likelihoodFrac_lo q h, likelihoodFrac_lo 0 le_rfl]
  · rw [computeEV_eq, computeEV_eq, hzero .undefined rfl, likelihoodFrac_lo 0 le_rfl]
  · rw [computeEV_eq, computeEV_eq, likelihoodFrac_hi 150 (by norm_num),
      likelihoodFrac_hi 100 le_rfl]
  · simp only [computeEV, safeNum, jsToNumber, ZERO_AS_MISSING, jsGtZero]
    norm_num [jsRound]
  · simp only [computeEV, safeNum, jsToNumber, ZERO_AS_MISSING, jsGtZero]
    norm_num [jsRound]

/-- C5 witness: the clamping equalities instantiated at 150 and -20. -/
theorem C5_likelihood_clamp_witness :
    (100:ℚ) ≤ 150 ∧
    computeEV (.num 100) (.num 100) (.num 150) = computeEV (.num 100) (.num 100) (.num 100) ∧
    (-20:ℚ) ≤ 0 ∧
    computeEV (.num 100) (.num 100) (.num (-20)) = computeEV (.num 100) (.num 100) (.num 0) :=
  ⟨by norm_num, C5_likelihood_clamp.2.2.2.2.2.1 (.num 100) (.num 100) 150 (by norm_num),
    by norm_num, C5_likelihood_clamp.2.2.2.2.2.2.1 (.num 100) (.num 100) (-20) (by norm_num)⟩

/-- C6: after the zero-as-missing rule the midpoint is (min + max) / 2
when both bounds are non-null, the single present value when exactly one
is, and 0 when both are null; computeEV factors through this midpoint,
and computeEV(null, null, p) = 0 for every p. -/
theorem C6_midpoint_rule :
    (∀ a b : ℚ, midpointOpt (some a) (some b) = (a + b) / 2) ∧
    (∀ a : ℚ, midpointOpt (some a) none = a) ∧
    (∀ b : ℚ, midpointOpt none (some b) = b) ∧
    midpointOpt none none = 0 ∧
    (∀ mn mx c, computeEV mn mx c =
      jsRound (midpointOpt (zeroAdjust (safeNum mn) (safeNum mx)).1
        (zeroAdjust (safeNum mn) (safeNum mx)).2 * likelihoodFrac c)) ∧
    (∀ c, computeEV .null .null c = 0) := by
  refine ⟨fun a b => rfl, fun a => rfl, fun b => rfl, rfl, fun mn mx c => rfl, fun c => ?_⟩
  rw [computeEV_eq]
  have e : midpointOf .null .null = 0 := by
    simp [midpointOf, zeroAdjust, safeNum_null, jsGtZero, midpointOpt]
  rw [e, zero_mul]
  norm_num [jsRound]

/-- The direct payload of the spec's envelope-unwrapping test case. -/
def directPayload : JSVal :=
  .obj [("list_entry_id", .str "42"), ("field", .obj [("list_id", .num 300305)])]

/-- The same payload wrapped in the platform's envelope. -/
def wrappedPayload : JSVal := .obj [("type", .str "x"), ("body", directPayload)]

/-- C3 counterexample: with list_entry_id = "" and listEntryId = "42"
the source resolves "" (the first non-nullish candidate), not the first
non-empty candidate "42" stated by the claim. -/
theorem C3_resolution_cex :
    resolveListEntryId (.obj [("list_entry_id", .str ""), ("listEntryId", .str "42")]) = "" ∧
    specFirstNonEmptyId (.obj [("list_entry_id", .str ""), ("listEntryId", .str "42")]) = "42" :=
  ⟨rfl, rfl⟩

/-- C3 (amended): the identifier is resolved by trying list_entry_id,
listEntryId, then data.list_entry_id in order, taking the first
non-nullish candidate coerced to a string (an empty-string candidate
wins and later yields no identifier); a payload wrapped in a body
envelope resolves identically to the unwrapped body. -/
theorem C3_resolution_amended :
    (∀ payload v, getp payload "list_entry_id" = v → nullish v = false →
      resolveListEntryId payload = jsToString v) ∧
    (∀ payload v, nullish (getp payload "list_entry_id") = true →
      getp payload "listEntryId" = v → nullish v = false →
      resolveListEntryId payload = jsToString v) ∧
    (∀ payload v, nullish (getp payload "list_entry_id") = true →
      nullish (getp payload "listEntryId") = true →
      getp (getp payload "data") "list_entry_id" = v → nullish v = false →
      resolveListEntryId payload = jsToString v) ∧
    (∀ payload, nullish (getp payload "list_entry_id") = true →
      nullish (getp payload "listEntryId") = true →
      nullish (getp (getp payload "data") "list_entry_id") = true →
      resolveListEntryId payload = "") ∧
    (∀ jp fq env,
      handler jp fq env ⟨.val wrappedPayload, false, .ok ""⟩ =
      handler jp fq env ⟨.val directPayload, false, .ok ""⟩) := by
  refine ⟨fun payload v h1 h2 => ?_, fun payload v h0 h1 h2 => ?_,
    fun payload v h0 h0b h1 h2 => ?_, fun payload h0 h0b h0c => ?_, fun jp fq env => ?_⟩
  · simp [resolveListEntryId, coal, h1, h2]
  · simp [resolveListEntryId, coal, h0, h1, h2]
  · simp [resolveListEntryId, coal, h0, h0b, h1, h2]
  · simp [resolveListEntryId, coal, h0, h0b, h0c, jsToString]
  · by_cases h : env.tokenPresent
    · have e1 : acquireOuter jp fq ⟨.val wrappedPayload, false, .ok ""⟩ = .ok wrappedPayload := rfl
      have e2 : selectPayload jp wrappedPayload = .ok directPayload := rfl
      have e3 : acquireOuter jp fq ⟨.val directPayload, false, .ok ""⟩ = .ok directPayload := rfl
      have e4 : selectPayload jp directPayload = .ok directPayload := rfl
      have e5 : resolveEventListId directPayload wrappedPayload = some LIST_ID := rfl
      have e6 : resolveEventListId directPayload directPayload = some LIST_ID := rfl
      simp [handler, h, e1, e2, e3, e4, e5, e6]
    · simp [handler, h]

/-- C3 witness: the first-candidate rule instantiated at a concrete
payload. -/
theorem C3_resolution_amended_witness :
    getp (.obj [("list_entry_id", .str "9")]) "list_entry_id" = .str "9" ∧
    nullish (.str "9") = false ∧
    resolveListEntryId (.obj [("list_entry_id", .str "9")]) = jsToString (.str "9") :=
  ⟨rfl, rfl, C3_resolution_amended.1 (.obj [("list_entry_id", .str "9")]) (.str "9") rfl rfl⟩

/-- Every branch of the processing stage responds with status 200. -/
theorem processEntry_status (env : Env) (lid : String) :
    (processEntry env lid).1.status = 200 := by
  unfold processEntry
  rcases hg : env.get 0 with e | fr
  · rfl
  · rcases hp : env.post with e | pr
    · rfl
    · by_cases hb : pr.status < 200 ∨ 300 ≤ pr.status
      · simp [hb]
      · rcases hv : verifyLoop env lid 0 4 none with ec | rc <;> simp [hb, hv]

/-- C7: every request is answered with status 200 when the credential is
configured and 500 otherwise, and a thrown outbound call is surfaced as
the caught diagnostic body with status 200. -/
theorem C7_status_dichotomy :
    (∀ jp fq env req, (handler jp fq env req).1.status =
      if env.tokenPresent then 200 else 500) ∧
    (∀ env lid e, env.get 0 = .error e →
      processEntry env lid = (⟨200, .caught (errStatus e) (errData e)⟩, [.getFields lid])) := by
  constructor
  · intro jp fq env req
    by_cases h : env.tokenPresent
    · simp only [handler, h, if_true]
      rcases hA : acquireOuter jp fq req with m | outer
      · simp [hA]
      · simp only [hA]
        rcases hS : selectPayload jp outer with m | payload
        · simp [hS]
        · simp only [hS]
          by_cases h1 : resolveListEntryId payload = ""
          · simp [h1]
          · by_cases h2 : resolveEventListId payload outer = some LIST_ID
            · simp [h1, h2, processEntry_status]
            · simp [h1, h2]
    · simp [handler, h]
  · intro env lid e hg
    simp [processEntry, hg]

/-- C7 witness: the caught-shape conjunct instantiated at an environment
whose initial read throws a 503 error. -/
theorem C7_status_dichotomy_witness :
    processEntry ⟨true, fun _ => .error ⟨some 503, some (.str "down"), "m"⟩,
        .error ⟨none, none, "x"⟩⟩ "42" =
      (⟨200, .caught (errStatus ⟨some 503, some (.str "down"), "m"⟩)
        (errData ⟨some 503, some (.str "down"), "m"⟩)⟩, [.getFields "42"]) :=
  C7_status_dichotomy.2 _ "42" _ rfl

/-- C8: with the credential configured, a payload with no resolvable
list-entry id is answered 200 skipped/no_list_entry_id and a payload
whose resolved list id differs from the target is answered 200
skipped/different_list, in both cases with no outbound call. -/
theorem C8_skip_responses :
    (∀ jp fq env req outer payload, env.tokenPresent = true →
      acquireOuter jp fq req = .ok outer → selectPayload jp outer = .ok payload →
      resolveListEntryId payload = "" →
      handler jp fq env req = (⟨200, .skippedNoId payload⟩, [])) ∧
    (∀ jp fq env req outer payload, env.tokenPresent = true →
      acquireOuter jp fq req = .ok outer → selectPayload jp outer = .ok payload →
      resolveListEntryId payload ≠ "" →
      resolveEventListId payload outer ≠ some LIST_ID →
      handler jp fq env req = (⟨200, .skippedDiffList (resolveEventListId payload outer)⟩, [])) := by
  constructor
  · intro jp fq env req outer payload htok hacq hsel hid
    simp [handler, htok, hacq, hsel, hid]
  · intro jp fq env req outer payload htok hacq hsel hid hlist
    simp [handler, htok, hacq, hsel, hid, hlist]

/-- C8 witness: the no-identifier skip instantiated at a concrete
request and environment. -/
theorem C8_skip_responses_witness :
    handler (fun _ => none) (fun _ => [])
        ⟨true, fun _ => .error ⟨none, none, "x"⟩, .error ⟨none, none, "x"⟩⟩
        ⟨.val (.obj [("x", .num 1)]), false, .ok ""⟩ =
      (⟨200, .skippedNoId (.obj [("x", .num 1)])⟩, []) :=
  C8_skip_responses.1 _ _ _ _ (.obj [("x", .num 1)]) (.obj [("x", .num 1)]) rfl rfl rfl rfl

/-- C1: when the remote write of the EV field returns a non-2xx status
(without the client throwing), the handler responds 200 with the
structured postFailed diagnostic carrying the status and data, and the
trace shows the write is issued exactly once (not retried). -/
theorem C1_write_failure_diagnostic
    (jp : String → Option JSVal) (fq : String → List (String × String))
    (env : Env) (req : Request) (outer payload : JSVal)
    (fr : Option (List FieldEntry)) (s : ℕ) (d : JSVal)
    (htok : env.tokenPresent = true)
    (hacq : acquireOuter jp fq req = .ok outer)
    (hsel : selectPayload jp outer = .ok payload)
    (hne : resolveListEntryId payload ≠ "")
    (hlist : resolveEventListId payload outer = some LIST_ID)
    (hget : env.get 0 = .ok fr)
    (hpost : env.post = .ok ⟨s, d⟩)
    (hbad : s < 200 ∨ 300 ≤ s) :
    handler jp fq env req =
      (⟨200, .postFailed s d (resolveListEntryId payload)
          (safeNum (fieldLookup fr FID_MIN)) (safeNum (fieldLookup fr FID_MAX))
          (safeNum (fieldLookup fr FID_P))
          (computeEV (ofOpt (safeNum (fieldLookup fr FID_MIN)))
            (ofOpt (safeNum (fieldLookup fr FID_MAX)))
            (ofOpt (safeNum (fieldLookup fr FID_P))))⟩,
        [.getFields (resolveListEntryId payload),
         .postEV (resolveListEntryId payload)
           (computeEV (ofOpt (safeNum (fieldLookup fr FID_MIN)))
             (ofOpt (safeNum (fieldLookup fr FID_MAX)))
             (ofOpt (safeNum (fieldLookup fr FID_P))))]) := by
  simp [handler, htok, hacq, hsel, hne, hlist, processEntry, hget, hpost, hbad]

/-- C1 witness: the diagnostic response instantiated at a request whose
write returns 404. -/
theorem C1_write_failure_diagnostic_witness :
    handler (fun _ => none) (fun _ => [])
        ⟨true, fun _ => .ok (some []), .ok ⟨404, .str "nf"⟩⟩
        ⟨.val (.obj [("list_entry_id", .str "7")]), false, .ok ""⟩ =
      (⟨200, .postFailed 404 (.str "nf")
          (resolveListEntryId (.obj [("list_entry_id", .str "7")]))
          (safeNum (fieldLookup (some []) FID_MIN)) (safeNum (fieldLookup (some []) FID_MAX))
          (safeNum (fieldLookup (some []) FID_P))
          (computeEV (ofOpt (safeNum (fieldLookup (some []) FID_MIN)))
            (ofOpt (safeNum (fieldLookup (some []) FID_MAX)))
            (ofOpt (safeNum (fieldLookup (some []) FID_P))))⟩,
        [.getFields (resolveListEntryId (.obj [("list_entry_id", .str "7")])),
         .postEV (resolveListEntryId (.obj [("list_entry_id", .str "7")]))
           (computeEV (ofOpt (safeNum (fieldLookup (some []) FID_MIN)))
             (ofOpt (safeNum (fieldLookup (some []) FID_MAX)))
             (ofOpt (safeNum (fieldLookup (some []) FID_P))))]) :=
  C1_write_failure_diagnostic _ _ _ _ _ (.obj [("list_entry_id", .str "7")]) (some []) 404
    (.str "nf") rfl rfl rfl (by decide) rfl rfl rfl (by norm_num)

/-- The C10 request carrying the target list id as a numeric string. -/
def numericStrPayload : JSVal :=
  .obj [("list_entry_id", .str "42"), ("field", .obj [("list_id", .str "300305")])]

/-- The C10 request carrying a non-numeric list id. -/
def nonNumericPayload : JSVal :=
  .obj [("list_entry_id", .str "42"), ("field", .obj [("list_id", .str "12a")])]

/-- C10: the resolved list id is compared after Number() coercion: the
numeric string "300305" is processed as a match while a non-numeric
list_id coerces to NaN and is skipped as different_list, not an error. -/
theorem C10_list_id_number_coercion :
    jsToNumber (.str "300305") = some LIST_ID ∧
    jsToNumber (.str "12a") = none ∧
    (∀ jp fq env, env.tokenPresent = true →
      handler jp fq env ⟨.val numericStrPayload, false, .ok ""⟩ = processEntry env "42") ∧
    (∀ jp fq env, env.tokenPresent = true →
      handler jp fq env ⟨.val nonNumericPayload, false, .ok ""⟩ =
        (⟨200, .skippedDiffList none⟩, [])) := by
  refine ⟨rfl, rfl, fun jp fq env h => ?_, fun jp fq env h => ?_⟩
  · have e1 : acquireOuter jp fq ⟨.val numericStrPayload, false, .ok ""⟩ =
        .ok numericStrPayload := rfl
    have e2 : selectPayload jp numericStrPayload = .ok numericStrPayload := rfl
    have e3 : resolveListEntryId numericStrPayload = "42" := rfl
    have e4 : resolveEventListId numericStrPayload numericStrPayload = some LIST_ID := rfl
    simp [handler, h, e1, e2, e3, e4]
  · have e1 : acquireOuter jp fq ⟨.val nonNumericPayload, false, .ok ""⟩ =
        .ok nonNumericPayload := rfl
    have e2 : selectPayload jp nonNumericPayload = .ok nonNumericPayload := rfl
    have e3 : resolveListEntryId nonNumericPayload = "42" := rfl
    have e4 : resolveEventListId nonNumericPayload nonNumericPayload = none := rfl
    simp [handler, h, e1, e2, e3, e4]

/-- C10 witness: the numeric-string match instantiated at a concrete
environment. -/
theorem C10_list_id_number_coercion_witness :
    handler (fun _ => none) (fun _ => [])
        ⟨true, fun _ => .error ⟨none, none, "x"⟩, .error ⟨none, none, "x"⟩⟩
        ⟨.val numericStrPayload, false, .ok ""⟩ =
      processEntry ⟨true, fun _ => .error ⟨none, none, "x"⟩, .error ⟨none, none, "x"⟩⟩ "42" :=
  C10_list_id_number_coercion.2.2.1 _ _ _ rfl

/-- The verify loop performs at most `fuel` re-reads. -/
theorem verifyLoop_getCount_le (env : Env) (lid : String) :
    ∀ fuel i pers, getCount (callsOf (verifyLoop env lid i fuel pers)) ≤ fuel := by
  intro fuel
  induction fuel with
  | zero => intro i pers; simp [verifyLoop, callsOf, getCount]
  | succ f ih =>
    intro i pers
    have hrec := ih (i + 1) none
    simp only [verifyLoop]
    rcases hg : env.get (i + 1) with e | after
    · simp [hg, callsOf, getCount]
    · rcases hv : safeNum (fieldLookup after FID_EV) with _ | v
      · rcases hr : verifyLoop env lid (i + 1) f none with ec | rc
        · rw [hr] at hrec
          simp [hg, hv, hr, callsOf, getCount, List.countP_cons] at hrec ⊢
          omega
        · rw [hr] at hrec
          simp [hg, hv, hr, callsOf, getCount, List.countP_cons] at hrec ⊢
          omega
      · simp [hg, hv, callsOf, getCount]

/-- With all four re-reads returning a null EV value, the verify loop
exhausts its attempts: four reads interleaved with the four backoff
sleeps, and a null final value. -/
theorem verifyLoop_exhausted (env : Env) (lid : String)
    (h : ∀ n, 1 ≤ n → n ≤ 4 → ∃ fr, env.get n = .ok fr ∧ safeNum (fieldLookup fr FID_EV) = none) :
    verifyLoop env lid 0 4 none =
      .ok (none, [.getFields lid, .sleep 200, .getFields lid, .sleep 400,
        .getFields lid, .sleep 800, .getFields lid, .sleep 1600]) := by
  obtain ⟨f1, hg1, hv1⟩ := h 1 (by norm_num) (by norm_num)
  obtain ⟨f2, hg2, hv2⟩ := h 2 (by norm_num) (by norm_num)
  obtain ⟨f3, hg3, hv3⟩ := h 3 (by norm_num) (by norm_num)
  obtain ⟨f4, hg4, hv4⟩ := h 4 (by norm_num) (by norm_num)
  simp [verifyLoop, hg1, hv1, hg2, hv2, hg3, hv3, hg4, hv4]

/-- C9: the verification step re-reads at most 4 times, stops early on
the first non-null read, and on exhaustion performs exactly 4 reads with
backoff sleeps of 200, 400, 800 and 1600 ms, after which the success
payload reports a null persisted value without failing. -/
theorem C9_verify_retry_policy :
    (∀ env lid, getCount (callsOf (verifyLoop env lid 0 4 none)) ≤ 4) ∧
    (∀ env lid fr v, env.get 1 = .ok fr → safeNum (fieldLookup fr FID_EV) = some v →
      verifyLoop env lid 0 4 none = .ok (some v, [.getFields lid])) ∧
    (∀ env lid,
      (∀ n, 1 ≤ n → n ≤ 4 → ∃ fr, env.get n = .ok fr ∧ safeNum (fieldLookup fr FID_EV) = none) →
      verifyLoop env lid 0 4 none =
        .ok (none, [.getFields lid, .sleep 200, .getFields lid, .sleep 400,
          .getFields lid, .sleep 800, .getFields lid, .sleep 1600])) ∧
    (∀ env lid fr0 s d, env.get 0 = .ok fr0 → env.post = .ok ⟨s, d⟩ →
      ¬(s < 200 ∨ 300 ≤ s) →
      (∀ n, 1 ≤ n → n ≤ 4 → ∃ fr, env.get n = .ok fr ∧ safeNum (fieldLookup fr FID_EV) = none) →
      processEntry env lid =
        (⟨200, .success lid (safeNum (fieldLookup fr0 FID_MIN))
            (safeNum (fieldLookup fr0 FID_MAX)) (safeNum (fieldLookup fr0 FID_P))
            (computeEV (ofOpt (safeNum (fieldLookup fr0 FID_MIN)))
              (ofOpt (safeNum (fieldLookup fr0 FID_MAX)))
              (ofOpt (safeNum (fieldLookup fr0 FID_P)))) none⟩,
          [.getFields lid,
           .postEV lid (computeEV (ofOpt (safeNum (fieldLookup fr0 FID_MIN)))
             (ofOpt (safeNum (fieldLookup fr0 FID_MAX)))
             (ofOpt (safeNum (fieldLookup fr0 FID_P)))),
           .getFields lid, .sleep 200, .getFields lid, .sleep 400,
           .getFields lid, .sleep 800, .getFields lid, .sleep 1600])) := by
  refine ⟨fun env lid => verifyLoop_getCount_le env lid 4 0 none,
    fun env lid fr v hg hv => ?_, fun env lid h => verifyLoop_exhausted env lid h,
    fun env lid fr0 s d hg0 hp hok hall => ?_⟩
  · simp [verifyLoop, hg, hv]
  · simp [processEntry, hg0, hp, hok, verifyLoop_exhausted env lid hall]

/-- C9 witness: the exhaustion behaviour instantiated at an environment
whose re-reads always lack the EV field. -/
theorem C9_verify_retry_policy_witness :
    verifyLoop ⟨true, fun _ => .ok (some []), .ok ⟨204, .null⟩⟩ "e1" 0 4 none =
      .ok (none, [.getFields "e1", .sleep 200, .getFields "e1", .sleep 400,
        .getFields "e1", .sleep 800, .getFields "e1", .sleep 1600]) ∧
    processEntry ⟨true, fun _ => .ok (some []), .ok ⟨204, .null⟩⟩ "e1" =
      (⟨200, .success "e1" (safeNum (fieldLookup (some []) FID_MIN))
          (safeNum (fieldLookup (some []) FID_MAX)) (safeNum (fieldLookup (some []) FID_P))
          (computeEV (ofOpt (safeNum (fieldLookup (some []) FID_MIN)))
            (ofOpt (safeNum (fieldLookup (some []) FID_MAX)))
            (ofOpt (safeNum (fieldLookup (some []) FID_P)))) none⟩,
        [.getFields "e1",
         .postEV "e1" (computeEV (ofOpt (safeNum (fieldLookup (some []) FID_MIN)))
           (ofOpt (safeNum (fieldLookup (some []) FID_MAX)))
           (ofOpt (safeNum (fieldLookup (some []) FID_P)))),
         .getFields "e1", .sleep 200, .getFields "e1", .sleep 400,
         .getFields "e1", .sleep 800, .getFields "e1", .sleep 1600]) :=
  ⟨C9_verify_retry_policy.2.2.1 _ "e1" (fun n h1 h2 => ⟨some [], rfl, rfl⟩),
   C9_verify_retry_policy.2.2.2 _ "e1" (some []) 204 .null rfl rfl (by decide)
     (fun n h1 h2 => ⟨some [], rfl, rfl⟩)⟩
